import Mathlib

/-!
Verification of the box-score link resolution pipeline.

The development shallowly embeds the server-side resolution code
(`server/sportsApi.ts`, `server/storage.ts`, `shared/schema.ts`,
`server/routes.ts`) as executable Lean definitions.  JavaScript strings are
modelled as Lean `String` (a wrapper around `List Char`); the ASCII-level
behaviour of `toLowerCase`, `toUpperCase`, `trim`, `split` and
`encodeURIComponent` is reproduced by hand-written `List Char` functions.
Network calls (`fetch`) are modelled by oracle parameters: each external
endpoint becomes a function argument describing the response the outside
world would deliver, and the embedded function is the pure computation the
source performs on that response.
-/

namespace BoxScore

/-! ## JavaScript string primitives -/

/-- ASCII lower-casing of one character, as `String.prototype.toLowerCase`
acts on ASCII data. -/
def jsCharLower (c : Char) : Char := c.toLower

/-- ASCII upper-casing of one character. -/
def jsCharUpper (c : Char) : Char := c.toUpper

/-- JS `s.toLowerCase()` (ASCII fragment). -/
def jsToLower (s : String) : String := String.mk (s.data.map jsCharLower)

/-- JS `s.toUpperCase()` (ASCII fragment). -/
def jsToUpper (s : String) : String := String.mk (s.data.map jsCharUpper)

/-- Whitespace class used by JS `\s` and `trim` (ASCII fragment). -/
def isWs (c : Char) : Bool := c = ' ' || c = '\t' || c = '\n' || c = '\r'

/-- JS `s.trim()` (ASCII fragment). -/
def jsTrim (s : String) : String :=
  String.mk (((s.data.dropWhile isWs).reverse.dropWhile isWs).reverse)

/-- Does `l` contain `sub` as a contiguous sublist?  Mirrors JS
`String.prototype.includes` at the character-list level. -/
def listIncludes (sub : List Char) : List Char → Bool
  | [] => sub.isEmpty
  | c :: rest => sub.isPrefixOf (c :: rest) || listIncludes sub rest

/-- JS `s.includes(sub)`. -/
def strIncludes (s sub : String) : Bool := listIncludes sub.data s.data

/-- JS string-valued `a || b`: the empty string is falsy. -/
def jsOr (a b : String) : String := if a = "" then b else a

/-- Splitting on a single-character separator, matching the semantics of JS
`s.split(sep)` for a one-character separator string: the result always has at
least one element and empty fields are kept. -/
def splitCharList (sep : Char) : List Char → List (List Char)
  | [] => [[]]
  | c :: rest =>
    let r := splitCharList sep rest
    if c = sep then [] :: r
    else
      match r with
      | [] => [[c]]
      | w :: ws => (c :: w) :: ws

/-- JS `s.split(sep)` for a one-character separator. -/
def jsSplit (s : String) (sep : Char) : List String :=
  (splitCharList sep s.data).map String.mk

/-- Collapse each maximal run of characters satisfying `isRun` into the single
replacement character `rep`; the `inRun` flag records whether the previous
character belonged to a run.  This is JS `s.replace(runPattern, rep)` with a
global one-character-class-plus regex. -/
def collapseRuns (isRun : Char → Bool) (rep : Char) : List Char → Bool → List Char
  | [], _ => []
  | c :: rest, inRun =>
    if isRun c then
      if inRun then collapseRuns isRun rep rest true
      else rep :: collapseRuns isRun rep rest true
    else c :: collapseRuns isRun rep rest false

/-- JS `s.replace(wsRunPattern, "-")` with a global whitespace-run regex, as
used to derive link ids from provider names. -/
def jsWsRunsToDash (s : String) : String :=
  String.mk (collapseRuns isWs '-' s.data false)

/-- Hexadecimal digit (upper case) for `n < 16`. -/
def hexDigit (n : Nat) : Char :=
  if n < 10 then Char.ofNat (48 + n) else Char.ofNat (55 + n)

/-- Characters `encodeURIComponent` leaves unescaped. -/
def uriUnescaped (c : Char) : Bool :=
  (('a' ≤ c && c ≤ 'z') || ('A' ≤ c && c ≤ 'Z') || ('0' ≤ c && c ≤ '9')
    || c = '-' || c = '_' || c = '.' || c = '!' || c = '~' || c = '*'
    || c = '(' || c = ')')

/-- UTF-8 byte sequence of a character (scalar values only, as Lean `Char`). -/
def utf8Bytes (c : Char) : List Nat :=
  let n := c.toNat
  if n < 0x80 then [n]
  else if n < 0x800 then [0xC0 + n / 64, 0x80 + n % 64]
  else if n < 0x10000 then [0xE0 + n / 4096, 0x80 + (n / 64) % 64, 0x80 + n % 64]
  else [0xF0 + n / 262144, 0x80 + (n / 4096) % 64, 0x80 + (n / 64) % 64, 0x80 + n % 64]

/-- Percent-encoding of one byte. -/
def pctByte (b : Nat) : List Char := ['%', hexDigit (b / 16), hexDigit (b % 16)]

/-- JS `encodeURIComponent`. -/
def encodeURIComponent (s : String) : String :=
  String.mk (s.data.flatMap fun c =>
    if uriUnescaped c then [c] else (utf8Bytes c).flatMap pctByte)

/-! ## Date formatting

`storage.ts` formats the query date with `new Date(dateStr)` and
`toLocaleDateString("en-US", ...)`.  The platform `Date` builtin is modelled
for well-formed `"YYYY-MM-DD"` input interpreted at UTC; any other input
renders as `"Invalid Date"`. -/

/-- Parse a decimal numeral; `none` when empty or non-numeric. -/
def parseNatDigits : List Char → Option Nat
  | [] => none
  | cs =>
    if cs.all (fun c => '0' ≤ c && c ≤ '9') then
      some (cs.foldl (fun acc c => acc * 10 + (c.toNat - 48)) 0)
    else none

/-- Parse `"YYYY-MM-DD"` into `(year, month, day)`. -/
def parseISODate (s : String) : Option (Nat × Nat × Nat) :=
  match (splitCharList '-' s.data).map parseNatDigits with
  | [some y, some m, some d] => if 1 ≤ m && m ≤ 12 then some (y, m, d) else none
  | _ => none

def monthShortNames : List String :=
  ["Jan", "Feb", "Mar", "Apr", "May", "Jun",
   "Jul", "Aug", "Sep", "Oct", "Nov", "Dec"]

def monthLongNames : List String :=
  ["January", "February", "March", "April", "May", "June",
   "July", "August", "September", "October", "November", "December"]

def weekdayNames : List String :=
  ["Sunday", "Monday", "Tuesday", "Wednesday", "Thursday", "Friday", "Saturday"]

/-- Day of week (0 = Sunday) by Sakamoto's method. -/
def dayOfWeekIdx (y m d : Nat) : Nat :=
  let t := [0, 3, 2, 5, 0, 3, 5, 1, 4, 6, 2, 4]
  let y := if m < 3 then y - 1 else y
  (y + y / 4 - y / 100 + y / 400 + t.getD (m - 1) 0 + d) % 7

/-- `formatDateForDisplay` in `storage.ts`: short month, numeric day and year. -/
def formatDateForDisplay (dateStr : String) : String :=
  match parseISODate dateStr with
  | some (y, m, d) =>
    (monthShortNames.getD (m - 1) "") ++ " " ++ toString d ++ ", " ++ toString y
  | none => "Invalid Date"

/-- The long date format used for `matchInfo.formattedDate`: long weekday,
long month, numeric day and year. -/
def formatDateLong (dateStr : String) : String :=
  match parseISODate dateStr with
  | some (y, m, d) =>
    (weekdayNames.getD (dayOfWeekIdx y m d) "") ++ ", "
      ++ (monthLongNames.getD (m - 1) "") ++ " " ++ toString d ++ ", " ++ toString y
  | none => "Invalid Date"

/-! ## Name normalizer and matcher (`sportsApi.ts`) -/

/-- `normalizeTeamName`: lower-case, then strip every character outside
`[a-z0-9]`. -/
def normalizeTeamName (name : String) : String :=
  String.mk ((jsToLower name).data.filter fun c =>
    ('a' ≤ c && c ≤ 'z') || ('0' ≤ c && c ≤ '9'))

/-- The fixed allow-list of two-word nicknames in `getTeamNickname`. -/
def twoWordTeams : List String :=
  ["trail blazers", "blue jays", "red sox", "white sox", "maple leafs", "golden knights"]

/-- `getTeamNickname`: the last word of the display name, except that a
trailing two-word nickname from the allow-list is kept whole; an empty last
word falls back to the whole display name (JS `||`). -/
def getTeamNickname (displayName : String) : String :=
  let parts := jsSplit displayName ' '
  let lastTwo := jsToLower (String.intercalate " " (parts.drop (parts.length - 2)))
  if twoWordTeams.contains lastTwo then
    normalizeTeamName lastTwo
  else
    normalizeTeamName (jsOr ((parts.get? (parts.length - 1)).getD "") displayName)

/-- `teamMatches`: the graduated match policy of `sportsApi.ts`. -/
def teamMatches (searchTeam teamName teamAbbr displayName : String) : Bool :=
  let search := normalizeTeamName searchTeam
  let normalizedTeamName := normalizeTeamName teamName
  let normalizedDisplayName := normalizeTeamName displayName
  let normalizedAbbr := normalizeTeamName teamAbbr
  let nickname := getTeamNickname displayName
  (normalizedAbbr == search)
  || (search == nickname)
  || (normalizedDisplayName == search || normalizedTeamName == search)
  || (strIncludes search normalizedDisplayName || strIncludes search normalizedTeamName)
  || (decide (4 ≤ search.length) && strIncludes normalizedDisplayName search)
  || (decide (4 ≤ nickname.length) && strIncludes search nickname)

/-! ## League classifier (`storage.ts`, `detectLeague`) -/

def nbaTeams : List String :=
  ["lakers", "warriors", "celtics", "heat", "bulls", "knicks", "nets", "76ers",
   "suns", "mavericks", "bucks", "clippers", "nuggets", "grizzlies", "pelicans",
   "hawks", "hornets", "magic", "pistons", "pacers", "cavaliers", "raptors",
   "wizards", "timberwolves", "thunder", "blazers", "jazz", "kings", "spurs",
   "rockets"]

def mlbTeams : List String :=
  ["yankees", "dodgers", "red sox", "cubs", "giants", "astros", "braves",
   "phillies", "mets", "cardinals", "padres", "mariners", "rangers", "twins",
   "guardians", "orioles", "rays", "blue jays", "white sox", "royals", "tigers",
   "angels", "athletics", "brewers", "reds", "pirates", "rockies",
   "diamondbacks", "nationals", "marlins"]

def nflTeams : List String :=
  ["cowboys", "patriots", "packers", "chiefs", "49ers", "eagles", "bills",
   "dolphins", "jets", "ravens", "steelers", "bengals", "browns", "titans",
   "colts", "texans", "jaguars", "broncos", "raiders", "chargers", "seahawks",
   "rams", "cardinals", "falcons", "panthers", "saints", "buccaneers", "bears",
   "lions", "vikings", "commanders"]

def nhlTeams : List String :=
  ["maple leafs", "canadiens", "bruins", "rangers", "blackhawks", "penguins",
   "golden knights", "avalanche", "oilers", "flames", "canucks", "kraken",
   "kings", "sharks", "ducks", "coyotes", "stars", "blues", "wild", "predators",
   "jets", "lightning", "panthers", "hurricanes", "capitals", "flyers",
   "devils", "islanders", "sabres", "senators", "red wings", "blue jackets"]

def mlsTeams : List String :=
  ["galaxy", "inter miami", "atlanta united", "sounders", "lafc", "timbers",
   "whitecaps", "earthquakes", "fc dallas", "dynamo", "sporting kc",
   "minnesota united", "real salt lake", "colorado rapids", "austin fc",
   "nashville sc", "charlotte fc", "dc united", "new york red bulls", "nycfc",
   "new england revolution", "philadelphia union", "columbus crew",
   "chicago fire", "cf montreal", "toronto fc", "orlando city", "cincinnati"]

/-- `detectLeague`: one membership test per league, in NBA, MLB, NFL, NHL, MLS
order; falls back to the four major leagues (MLS excluded) when nothing
matched. -/
def detectLeague (teamName : String) : List String :=
  let teamLower := jsToLower teamName
  let leagues :=
    (if nbaTeams.any (fun t => strIncludes teamLower t) then ["nba"] else [])
    ++ (if mlbTeams.any (fun t => strIncludes teamLower t) then ["mlb"] else [])
    ++ (if nflTeams.any (fun t => strIncludes teamLower t) then ["nfl"] else [])
    ++ (if nhlTeams.any (fun t => strIncludes teamLower t) then ["nhl"] else [])
    ++ (if mlsTeams.any (fun t => strIncludes teamLower t) then ["mls"] else [])
  if leagues.isEmpty then ["nba", "mlb", "nfl", "nhl"] else leagues

/-! ## Scoreboard client (`sportsApi.ts`, `fetchGamesByDate`)

The outbound HTTP call is modelled by a `FetchOutcome` oracle: either the
request throws (network failure or a body that is not JSON — both land in the
source's `catch`), or the response is non-2xx (`!response.ok`), or a payload
arrives.  Optional JSON fields become `Option`. -/

structure ESPNTeam where
  name : String
  abbreviation : String
  displayName : String
deriving DecidableEq, Repr

structure ESPNCompetitor where
  team : ESPNTeam
  homeAway : String
deriving DecidableEq, Repr

structure ESPNCompetition where
  competitors : Option (List ESPNCompetitor)
deriving DecidableEq, Repr

structure ESPNGame where
  id : String
  competitions : Option (List ESPNCompetition)
deriving DecidableEq, Repr

structure ESPNScoreboardResponse where
  events : Option (List ESPNGame)
deriving DecidableEq, Repr

inductive FetchOutcome where
  /-- the `fetch` or `response.json()` call threw (network error, malformed body) -/
  | thrown
  /-- `!response.ok`: a non-2xx status -/
  | httpError
  /-- a parsed JSON payload -/
  | payload (data : ESPNScoreboardResponse)
deriving DecidableEq, Repr

structure GameInfo where
  espnGameId : String
  homeTeam : String
  awayTeam : String
  homeTeamAbbr : String
  awayTeamAbbr : String
  gameDate : String
  league : String
deriving DecidableEq, Repr

/-- The static `ESPN_SCOREBOARD_URLS` table. -/
def ESPN_SCOREBOARD_URLS : List (String × String) :=
  [("nba", "https://site.api.espn.com/apis/site/v2/sports/basketball/nba/scoreboard"),
   ("mlb", "https://site.api.espn.com/apis/site/v2/sports/baseball/mlb/scoreboard"),
   ("nfl", "https://site.api.espn.com/apis/site/v2/sports/football/nfl/scoreboard"),
   ("nhl", "https://site.api.espn.com/apis/site/v2/sports/hockey/nhl/scoreboard"),
   ("mls", "https://site.api.espn.com/apis/site/v2/sports/soccer/usa.1/scoreboard")]

/-- `ESPN_SCOREBOARD_URLS[league]` as an association-list lookup. -/
def scoreboardUrlFor (league : String) : Option String :=
  (ESPN_SCOREBOARD_URLS.find? (fun p => p.1 == league)).map (·.2)

/-- The per-event body of the `for (const event of data.events)` loop:
an event contributes one `GameInfo` when it has a first competition whose
competitor list has at least two entries including a home and an away side,
and nothing otherwise. -/
def processEvent (league date : String) (event : ESPNGame) : List GameInfo :=
  match event.competitions with
  | none => []
  | some comps =>
    if comps.length > 0 then
      match comps.head? with
      | none => []
      | some competition =>
        match competition.competitors with
        | none => []
        | some competitors =>
          if competitors.length ≥ 2 then
            match competitors.find? (fun c => c.homeAway == "home"),
                  competitors.find? (fun c => c.homeAway == "away") with
            | some homeTeam, some awayTeam =>
              [{ espnGameId := event.id,
                 homeTeam := homeTeam.team.displayName,
                 awayTeam := awayTeam.team.displayName,
                 homeTeamAbbr := homeTeam.team.abbreviation,
                 awayTeamAbbr := awayTeam.team.abbreviation,
                 gameDate := date,
                 league := jsToUpper league }]
            | _, _ => []
          else []
    else []

/-- `fetchGamesByDate`: unknown league, a thrown call, a non-2xx response and
a missing or empty `events` array all yield `[]`; otherwise each event is
processed independently. -/
def fetchGamesByDate (league date : String) (outcome : FetchOutcome) : List GameInfo :=
  match scoreboardUrlFor league with
  | none => []
  | some _ =>
    match outcome with
    | .thrown => []
    | .httpError => []
    | .payload data =>
      match data.events with
      | none => []
      | some events =>
        if events.length == 0 then []
        else events.flatMap (processEvent league date)

/-! ## Game resolver (`sportsApi.ts`, `findGame`) -/

/-- The per-game test inside `findGame`: home team first, away team second;
the source passes the team's display name for both the `teamName` and
`displayName` arguments. -/
def gameMatchesB (teamName : String) (g : GameInfo) : Bool :=
  teamMatches teamName g.homeTeam g.homeTeamAbbr g.homeTeam
  || teamMatches teamName g.awayTeam g.awayTeamAbbr g.awayTeam

/-- The scoreboard side of the outside world: a response outcome for every
league/date pair. -/
def Scoreboard := String → String → FetchOutcome

/-- `findGame`: iterate the candidate leagues in order, fetch each league's
games, return the first matching game. -/
def findGame (teamName date : String) (sb : Scoreboard) : List String → Option GameInfo
  | [] => none
  | league :: rest =>
    match (fetchGamesByDate league date (sb league date)).find? (gameMatchesB teamName) with
    | some game => some game
    | none => findGame teamName date sb rest

/-- The trace of leagues whose scoreboard `findGame`'s loop actually fetches:
the loop body runs for each league until (and including) the first league
containing a match. -/
def findGameQueried (teamName date : String) (sb : Scoreboard) : List String → List String
  | [] => []
  | league :: rest =>
    match (fetchGamesByDate league date (sb league date)).find? (gameMatchesB teamName) with
    | some _ => [league]
    | none => league :: findGameQueried teamName date sb rest

/-! ## MLB secondary lookup (`sportsApi.ts`, `fetchMlbGameId`) -/

/-- `slugifyTeamName`: lower-case, drop characters outside
`[a-z0-9\s-]`, turn whitespace runs into single dashes, collapse dash runs,
then trim. -/
def slugifyTeamName (teamName : String) : String :=
  let l1 := (jsToLower teamName).data
  let l2 := l1.filter fun c =>
    ('a' ≤ c && c ≤ 'z') || ('0' ≤ c && c ≤ '9') || isWs c || c = '-'
  let l3 := collapseRuns isWs '-' l2 false
  let l4 := collapseRuns (fun c => c = '-') '-' l3 false
  jsTrim (String.mk l4)

/-- The city alternatives of the single `cityPatterns` regex, in source
order (a JS alternation tries alternatives left to right). -/
def mlbCityNames : List String :=
  ["Los Angeles", "New York", "San Francisco", "San Diego", "St. Louis",
   "Kansas City", "Tampa Bay", "Texas", "Arizona", "Colorado", "Minnesota",
   "Oakland", "Seattle", "Baltimore", "Boston", "Chicago", "Cincinnati",
   "Cleveland", "Detroit", "Houston", "Miami", "Milwaukee", "Philadelphia",
   "Pittsburgh", "Toronto", "Washington", "Atlanta"]

/-- Match one regex alternative at the start of the name,
case-insensitively, followed by at least one whitespace character; on
success return what follows the greedily consumed whitespace run. -/
def stripCityAlt (city : List Char) (full : List Char) : Option (List Char) :=
  if (city.map jsCharLower).isPrefixOf (full.map jsCharLower) then
    let rest := full.drop city.length
    match rest with
    | [] => none
    | c :: _ => if isWs c then some (rest.dropWhile isWs) else none
  else none

/-- `extractMlbNickname`: strip the first matching `^(city)\s+` alternative
(the regex replaces only its first match), then trim. -/
def extractMlbNickname (fullName : String) : String :=
  let rec go : List String → String
    | [] => jsTrim fullName
    | city :: rest =>
      match stripCityAlt city.data fullName.data with
      | some remaining => jsTrim (String.mk remaining)
      | none => go rest
  go mlbCityNames

/-- One game record of the MLB StatsAPI schedule payload: the numeric
`gamePk` plus the `teams.home.team.name` / `teams.away.team.name` strings
(already defaulted to `""` when absent, as the source's `|| ""` does). -/
structure MlbScheduleGame where
  gamePk : Nat
  homeName : String
  awayName : String
deriving DecidableEq, Repr

/-- One entry of the schedule payload's `dates` array; `games` may be
absent. -/
structure MlbDateEntry where
  games : Option (List MlbScheduleGame)
deriving DecidableEq, Repr

/-- The MLB StatsAPI call, as an oracle: thrown request, non-2xx response,
or a payload whose `dates` array (defaulted to `[]` when absent) is given. -/
inductive MlbOutcome where
  | thrown
  | httpError
  | payload (dates : List MlbDateEntry)
deriving DecidableEq, Repr

structure MlbGameResult where
  gamePk : String
  homeSlug : String
  awaySlug : String
  homeTeam : String
  awayTeam : String
deriving DecidableEq, Repr

/-- The per-game match test of `fetchMlbGameId`: every `teamMatches` call
passes the empty string as the abbreviation argument. -/
def mlbGameMatchesB (homeTeamName awayTeamName : String) (game : MlbScheduleGame) : Bool :=
  let gameHomeNickname := extractMlbNickname game.homeName
  let gameAwayNickname := extractMlbNickname game.awayName
  let homeMatch := teamMatches homeTeamName gameHomeNickname "" game.homeName
    || teamMatches homeTeamName gameAwayNickname "" game.awayName
  let awayMatch := teamMatches awayTeamName gameHomeNickname "" game.homeName
    || teamMatches awayTeamName gameAwayNickname "" game.awayName
  let singleTeamMatch := teamMatches homeTeamName gameHomeNickname "" game.homeName
    || teamMatches homeTeamName gameAwayNickname "" game.awayName
    || teamMatches awayTeamName gameHomeNickname "" game.homeName
    || teamMatches awayTeamName gameAwayNickname "" game.awayName
  (homeMatch && awayMatch) || singleTeamMatch

/-- The result record built for a matching schedule game. -/
def mlbResultOf (game : MlbScheduleGame) : MlbGameResult :=
  { gamePk := toString game.gamePk,
    homeSlug := slugifyTeamName (extractMlbNickname game.homeName),
    awaySlug := slugifyTeamName (extractMlbNickname game.awayName),
    homeTeam := game.homeName,
    awayTeam := game.awayName }

/-- `fetchMlbGameId`: `none` on a thrown call, a non-2xx response or an empty
`dates` array; otherwise the first game of `dates[0]?.games || []` passing
the match test, mapped to its result record. -/
def fetchMlbGameId (homeTeamName awayTeamName : String) (outcome : MlbOutcome) :
    Option MlbGameResult :=
  match outcome with
  | .thrown => none
  | .httpError => none
  | .payload dates =>
    if dates.length == 0 then none
    else
      let games := ((dates.head?).bind (·.games)).getD []
      (games.find? (mlbGameMatchesB homeTeamName awayTeamName)).map mlbResultOf

/-! ## URL builder (`sportsApi.ts`, `generateDirectUrls`) -/

structure DirectUrl where
  provider : String
  providerType : String
  url : String
  description : String
  league : String
deriving DecidableEq, Repr

/-- `generateDirectUrls`: the soccer league gets two match-path ESPN links,
every other league three boxscore-path ESPN links. -/
def generateDirectUrls (game : GameInfo) : List DirectUrl :=
  let league := jsToLower game.league
  if league == "mls" then
    [{ provider := "ESPN Match Stats",
       providerType := "third-party",
       url := "https://www.espn.com/soccer/match/_/gameId/" ++ game.espnGameId,
       description := "ESPN MLS match stats - " ++ game.awayTeam ++ " @ " ++ game.homeTeam,
       league := game.league },
     { provider := "ESPN Match Summary",
       providerType := "third-party",
       url := "https://www.espn.com/soccer/match/_/gameId/" ++ game.espnGameId ++ "/statistics",
       description := "ESPN MLS match statistics",
       league := game.league }]
  else
    [{ provider := "ESPN Box Score",
       providerType := "third-party",
       url := "https://www.espn.com/" ++ league ++ "/boxscore/_/gameId/" ++ game.espnGameId,
       description := "ESPN " ++ game.league ++ " box score - " ++ game.awayTeam ++ " @ " ++ game.homeTeam,
       league := game.league },
     { provider := "ESPN Game Summary",
       providerType := "third-party",
       url := "https://www.espn.com/" ++ league ++ "/game/_/gameId/" ++ game.espnGameId,
       description := "ESPN " ++ game.league ++ " game summary with all stats",
       league := game.league },
     { provider := "ESPN Play-by-Play",
       providerType := "third-party",
       url := "https://www.espn.com/" ++ league ++ "/playbyplay/_/gameId/" ++ game.espnGameId,
       description := "ESPN " ++ game.league ++ " play-by-play details",
       league := game.league }]

/-! ## Data model (`shared/schema.ts`) and result assembler (`storage.ts`) -/

structure SearchQuery where
  playerName : String
  teamName : String
  gameDate : String
deriving DecidableEq, Repr

structure BoxScoreLink where
  id : String
  provider : String
  providerType : String
  league : String
  url : String
  description : String
  linkType : String
deriving DecidableEq, Repr

structure MatchInfo where
  playerName : String
  teamName : String
  gameDate : String
  formattedDate : String
  /-- the optional `resolvedFromPlayer` field: present (as `some true`)
  exactly when the spread `...(resolvedPlayerTeam && {resolvedFromPlayer:
  true})` fires -/
  resolvedFromPlayer : Option Bool
deriving DecidableEq, Repr

structure SearchResult where
  query : SearchQuery
  links : List BoxScoreLink
  matchInfo : MatchInfo
deriving DecidableEq, Repr

/-- The shape returned by the player→team lookup (`searchPlayerTeam`). -/
structure PlayerTeam where
  playerName : String
  teamName : String
  league : String
deriving DecidableEq, Repr

/-- The shape returned by the NBA secondary lookup (`fetchNbaGameId`). -/
structure NbaGameRef where
  gameId : String
  awayAbbr : String
  homeAbbr : String
deriving DecidableEq, Repr

/-- The outside world as `generateBoxScoreLinks` sees it: the player→team
lookup, the per-league scoreboard responses, and the two league-operated
secondary lookups.  The NBA lookup is modelled at result level (the claims
never inspect its internals); the MLB lookup is given by its StatsAPI
response and routed through the embedded `fetchMlbGameId`. -/
structure Env where
  searchPlayerTeam : String → Option PlayerTeam
  scoreboard : Scoreboard
  nbaLookup : String → String → String → Option NbaGameRef
  mlbSchedule : String → String → String → MlbOutcome

/-- The per-league ESPN search fallback pushed by the `leagues.forEach`
loop in `generateFallbackLinks`. -/
def espnFallbackLink (query : SearchQuery) (league : String) : BoxScoreLink :=
  let displayDate := formatDateForDisplay query.gameDate
  let searchTerm := jsOr query.teamName (jsOr query.playerName "")
  let leagueUpper := jsToUpper league
  { id := "espn-" ++ league ++ "-search",
    provider := "ESPN (Search)",
    providerType := "third-party",
    league := leagueUpper,
    url := "https://www.espn.com/search/_/q/"
      ++ encodeURIComponent (jsTrim (searchTerm ++ " " ++ displayDate ++ " " ++ leagueUpper)),
    description := "Search ESPN for " ++ leagueUpper ++ " box score",
    linkType := "search" }

/-- The single Google search fallback appended after the loop. -/
def googleFallbackLink (query : SearchQuery) (leagues : List String) : BoxScoreLink :=
  let displayDate := formatDateForDisplay query.gameDate
  let searchQuery := encodeURIComponent
    (jsTrim (query.teamName ++ " " ++ query.playerName ++ " " ++ displayDate ++ " box score"))
  { id := "google-search",
    provider := "Google Search",
    providerType := "third-party",
    league :=
      match leagues.head? with
      | some l => jsOr (jsToUpper l) "ALL"
      | none => "ALL",
    url := "https://www.google.com/search?q=" ++ searchQuery,
    description := "Search Google for box score results",
    linkType := "search" }

/-- `generateFallbackLinks`: one ESPN search link per candidate league, then
one Google search link. -/
def generateFallbackLinks (query : SearchQuery) (leagues : List String) : List BoxScoreLink :=
  leagues.map (espnFallbackLink query) ++ [googleFallbackLink query leagues]

/-- `resolvedPlayerTeam`: the lookup runs only when no team name was supplied
(the empty string is the only falsy string) and a player name is present. -/
def resolvedPlayerTeamOf (query : SearchQuery) (env : Env) : Option PlayerTeam :=
  if query.teamName = "" ∧ query.playerName ≠ "" then
    env.searchPlayerTeam query.playerName
  else none

/-- `teamNameToUse`: the supplied team name, replaced by the looked-up
player's team when the lookup ran and succeeded. -/
def teamNameToUse (query : SearchQuery) (env : Env) : String :=
  match resolvedPlayerTeamOf query env with
  | some pt => pt.teamName
  | none => query.teamName

/-- `searchTerm`: `teamNameToUse || query.playerName || ""`. -/
def searchTermOf (query : SearchQuery) (env : Env) : String :=
  jsOr (teamNameToUse query env) (jsOr query.playerName "")

/-- The candidate league list for the query. -/
def leaguesOf (query : SearchQuery) (env : Env) : List String :=
  detectLeague (searchTermOf query env)

/-- `const game = teamNameToUse ? await findGame(...) : null`. -/
def resolvedGame (query : SearchQuery) (env : Env) : Option GameInfo :=
  if teamNameToUse query env ≠ "" then
    findGame (teamNameToUse query env) query.gameDate env.scoreboard (leaguesOf query env)
  else none

/-- The ESPN direct links: `generateDirectUrls(game).map((url, index) => ...)`
with ids derived from the lower-cased provider name and the index. -/
def directLinksOf (game : GameInfo) : List BoxScoreLink :=
  (generateDirectUrls game).enum.map fun p =>
    { id := jsWsRunsToDash (jsToLower p.2.provider) ++ "-" ++ toString p.1,
      provider := p.2.provider,
      providerType := p.2.providerType,
      league := p.2.league,
      url := p.2.url,
      description := p.2.description,
      linkType := "direct" }

/-- The destructured `const [year, month, day] = query.gameDate.split("-")`;
a missing component is the JS `undefined`, rendered as `"undefined"` inside a
template string. -/
def datePartsOf (gameDate : String) : String × String × String :=
  let parts := jsSplit gameDate '-'
  ((parts.get? 0).getD "undefined", (parts.get? 1).getD "undefined",
   (parts.get? 2).getD "undefined")

/-- The NBA-specific block of `generateBoxScoreLinks`: unshift an official
NBA.com link — a direct box-score link when the secondary lookup succeeded,
else a search-type schedule-page link — then push a Basketball Reference
direct link. -/
def nbaBlock (query : SearchQuery) (env : Env) (game : GameInfo)
    (links : List BoxScoreLink) : List BoxScoreLink :=
  let (year, month, day) := datePartsOf query.gameDate
  let links :=
    match env.nbaLookup query.gameDate game.homeTeamAbbr game.awayTeamAbbr with
    | some nbaGame =>
      { id := "nba-com-boxscore",
        provider := "NBA.com",
        providerType := "official",
        league := "NBA",
        url := "https://www.nba.com/game/" ++ nbaGame.awayAbbr ++ "-vs-"
          ++ nbaGame.homeAbbr ++ "-" ++ nbaGame.gameId ++ "/box-score",
        description := "Official NBA box score - " ++ game.awayTeam ++ " @ " ++ game.homeTeam,
        linkType := "direct" } :: links
    | none =>
      { id := "nba-com-schedule",
        provider := "NBA.com",
        providerType := "official",
        league := "NBA",
        url := "https://www.nba.com/games?date=" ++ year ++ "-" ++ month ++ "-" ++ day,
        description := "NBA games on " ++ formatDateForDisplay query.gameDate
          ++ " - find " ++ game.awayTeam ++ " @ " ++ game.homeTeam,
        linkType := "search" } :: links
  let brDate := year ++ month ++ day
  let homeAbbr := jsToUpper game.homeTeamAbbr
  links ++ [{ id := "bbref-boxscore",
              provider := "Basketball Reference",
              providerType := "third-party",
              league := "NBA",
              url := "https://www.basketball-reference.com/boxscores/"
                ++ brDate ++ "0" ++ homeAbbr ++ ".html",
              description := "Basketball Reference box score - "
                ++ game.awayTeam ++ " @ " ++ game.homeTeam,
              linkType := "direct" }]

/-- The MLB-specific block: unshift an official MLB.com direct link when the
StatsAPI lookup succeeded, then push a search-type Baseball Reference link. -/
def mlbBlock (query : SearchQuery) (env : Env) (game : GameInfo)
    (links : List BoxScoreLink) : List BoxScoreLink :=
  let (year, month, day) := datePartsOf query.gameDate
  let links :=
    match fetchMlbGameId game.homeTeam game.awayTeam
        (env.mlbSchedule query.gameDate game.homeTeam game.awayTeam) with
    | some mlbGame =>
      { id := "mlb-com-boxscore",
        provider := "MLB.com",
        providerType := "official",
        league := "MLB",
        url := "https://www.mlb.com/gameday/" ++ mlbGame.awaySlug ++ "-vs-"
          ++ mlbGame.homeSlug ++ "/" ++ year ++ "/" ++ month ++ "/" ++ day
          ++ "/" ++ mlbGame.gamePk ++ "/final/box",
        description := "Official MLB box score - " ++ mlbGame.awayTeam
          ++ " @ " ++ mlbGame.homeTeam,
        linkType := "direct" } :: links
    | none => links
  links ++ [{ id := "bref-boxscore",
              provider := "Baseball Reference",
              providerType := "third-party",
              league := "MLB",
              url := "https://www.baseball-reference.com/boxes/?date="
                ++ year ++ "-" ++ month ++ "-" ++ day,
              description := "Baseball Reference games on "
                ++ formatDateForDisplay query.gameDate,
              linkType := "search" }]

/-- The links built when a game was resolved: ESPN direct links, the NBA and
MLB blocks when the resolved league matches, then the SofaScore search
fallback. -/
def resolvedLinks (query : SearchQuery) (env : Env) (game : GameInfo)
    (tn : String) : List BoxScoreLink :=
  let links := directLinksOf game
  let links := if game.league == "NBA" then nbaBlock query env game links else links
  let links := if game.league == "MLB" then mlbBlock query env game links else links
  links ++ [{ id := "sofascore-search",
              provider := "SofaScore",
              providerType := "third-party",
              league := game.league,
              url := "https://www.sofascore.com/search?q="
                ++ encodeURIComponent (jsOr tn query.playerName),
              description := "Search SofaScore for detailed match statistics",
              linkType := "search" }]

/-- `MemStorage.generateBoxScoreLinks`: resolve the player's team when
needed, classify leagues, resolve the game, build links, and assemble the
result with display metadata. -/
def generateBoxScoreLinks (query : SearchQuery) (env : Env) : SearchResult :=
  let rpt := resolvedPlayerTeamOf query env
  let tn := teamNameToUse query env
  let leagues := leaguesOf query env
  let links :=
    match resolvedGame query env with
    | some game => resolvedLinks query env game tn
    | none => generateFallbackLinks query leagues
  { query := query,
    links := links,
    matchInfo :=
      { playerName := query.playerName,
        teamName :=
          match rpt with
          | some pt => pt.teamName ++ " (from " ++ pt.playerName ++ ")"
          | none => query.teamName,
        gameDate := query.gameDate,
        formattedDate := formatDateLong query.gameDate,
        resolvedFromPlayer := if rpt.isSome then some true else none } }

/-! ## Validation and HTTP endpoint (`shared/schema.ts`, `routes.ts`) -/

/-- An incoming request body: each field may be absent. -/
structure RawQuery where
  playerName : Option String
  teamName : Option String
  gameDate : Option String
deriving DecidableEq, Repr

/-- A zod issue: message plus failing field path. -/
structure ZodIssue where
  message : String
  path : List String
deriving DecidableEq, Repr

/-- `searchQuerySchema.safeParse`: the names default to `""`, `gameDate` is a
required non-empty string, and the refinement demands one of the two names be
non-blank after trimming, reporting against the `teamName` path. -/
def safeParse (r : RawQuery) : Except ZodIssue SearchQuery :=
  match r.gameDate with
  | none => .error { message := "Required", path := ["gameDate"] }
  | some d =>
    if d.length < 1 then
      .error { message := "Game date is required", path := ["gameDate"] }
    else
      let p := (r.playerName).getD ""
      let t := (r.teamName).getD ""
      if 0 < (jsTrim p).length ∨ 0 < (jsTrim t).length then
        .ok { playerName := p, teamName := t, gameDate := d }
      else
        .error { message := "Either player name or team name is required",
                 path := ["teamName"] }

/-- The response of the `/api/search` handler. -/
inductive SearchResponse where
  /-- status 400 with the validation message and field errors -/
  | badRequest (message : String) (issue : ZodIssue)
  /-- status 200 with the generated result -/
  | ok (result : SearchResult)
deriving DecidableEq, Repr

def SearchResponse.status : SearchResponse → Nat
  | .badRequest _ _ => 400
  | .ok _ => 200

/-- The `/api/search` handler: validate, then delegate to the link
generator.  The generator is a parameter so that its (non-)invocation is
observable. -/
def handleSearch (gen : SearchQuery → SearchResult) (r : RawQuery) : SearchResponse :=
  match safeParse r with
  | .error issue => .badRequest "Invalid search query" issue
  | .ok q => .ok (gen q)

/-! ## General helper lemmas -/

theorem map_const_replicate {α β : Type} (l : List α) (b : β) :
    l.map (fun _ => b) = List.replicate l.length b := by
  induction l with
  | nil => rfl
  | cons a t ih => simp [ih, List.replicate_succ]

theorem find?_append_or {α : Type} (p : α → Bool) (l1 l2 : List α) :
    (l1 ++ l2).find? p
      = match l1.find? p with
        | some a => some a
        | none => l2.find? p := by
  induction l1 with
  | nil => rfl
  | cons a t ih =>
    by_cases h : p a = true
    · simp [List.find?, h]
    · simp only [Bool.not_eq_true] at h
      simp [List.find?, h, ih]

theorem find?_all_true_head {α : Type} (p : α → Bool) (l : List α)
    (h : ∀ x ∈ l, p x = true) : l.find? p = l.head? := by
  cases l with
  | nil => rfl
  | cons a t => simp [List.find?, h a (List.mem_cons_self a t)]

theorem head?_of_map_replicate {α β : Type} [DecidableEq β] (l : List α) (f : α → β)
    (a : Nat) (x : β) (r : List β) (hm : l.map f = List.replicate a x ++ r)
    (ha : 0 < a) : l.head?.map f = some x := by
  cases l with
  | nil =>
    cases a with
    | zero => exact absurd ha (by simp)
    | succ n => simp [List.replicate_succ] at hm
  | cons c t =>
    cases a with
    | zero => exact absurd ha (by simp)
    | succ n =>
      simp only [List.map_cons, List.replicate_succ, List.cons_append,
        List.cons.injEq] at hm
      simp [hm.1]

theorem length_pos_of_ne_empty {s : String} (h : s ≠ "") : 0 < s.length := by
  cases s with
  | mk data =>
    cases data with
    | nil => exact absurd rfl h
    | cons c cs => simp [String.length]

/-! ## Claim C6 -/

/-- C6: `teamMatches("Lakers", "Los Angeles Lakers", "LAL", "Los Angeles
Lakers")` returns true, and `teamMatches("LA", "Los Angeles Lakers", "LAL",
"Los Angeles Lakers")` returns false. -/
theorem C6_matcher_examples :
    teamMatches "Lakers" "Los Angeles Lakers" "LAL" "Los Angeles Lakers" = true
    ∧ teamMatches "LA" "Los Angeles Lakers" "LAL" "Los Angeles Lakers" = false := by
  decide

/-! ## Claim C5 -/

theorem detectLeague_ne_nil_aux (l : List String) :
    (if l.isEmpty = true then ["nba", "mlb", "nfl", "nhl"] else l) ≠ [] := by
  split
  · simp
  · next h =>
    intro hc
    rw [hc] at h
    simp at h

/-- C5: `detectLeague` is pure and deterministic, returns a non-empty list
for every input, includes `"nba"` for `"Los Angeles Lakers"`, and returns
exactly `["nba", "mlb", "nfl", "nhl"]` (MLS excluded) whenever no per-league
team-name substring occurs in the input — in particular for `"Unknown
Rollerball Club"`. -/
theorem C5_detectLeague_spec :
    (∀ s t : String, s = t → detectLeague s = detectLeague t)
    ∧ (∀ s : String, detectLeague s ≠ [])
    ∧ "nba" ∈ detectLeague "Los Angeles Lakers"
    ∧ (∀ s : String,
        nbaTeams.any (fun t => strIncludes (jsToLower s) t) = false →
        mlbTeams.any (fun t => strIncludes (jsToLower s) t) = false →
        nflTeams.any (fun t => strIncludes (jsToLower s) t) = false →
        nhlTeams.any (fun t => strIncludes (jsToLower s) t) = false →
        mlsTeams.any (fun t => strIncludes (jsToLower s) t) = false →
        detectLeague s = ["nba", "mlb", "nfl", "nhl"])
    ∧ detectLeague "Unknown Rollerball Club" = ["nba", "mlb", "nfl", "nhl"] := by
  refine ⟨fun s t h => h ▸ rfl, fun s => detectLeague_ne_nil_aux _, by decide, ?_, by decide⟩
  intro s h1 h2 h3 h4 h5
  simp [detectLeague, h1, h2, h3, h4, h5]

/-- Closed instance of C5's universally quantified parts. -/
theorem C5_detectLeague_witness :
    detectLeague "zzz" = detectLeague "zzz"
    ∧ detectLeague "zzz" ≠ []
    ∧ detectLeague "zzz" = ["nba", "mlb", "nfl", "nhl"] :=
  ⟨C5_detectLeague_spec.1 "zzz" "zzz" rfl,
   C5_detectLeague_spec.2.1 "zzz",
   C5_detectLeague_spec.2.2.2.1 "zzz" (by decide) (by decide) (by decide)
     (by decide) (by decide)⟩

/-! ## Claim C2 -/

/-- C2 is refuted: rule 4 of `teamMatches` — the candidate's normalized full
name occurring inside the normalized search term — carries no length guard.
Here the two-character search term `"ab"` matches the one-character candidate
`"a"`, while every other rule (abbreviation, nickname, exact equality, the
guarded search-within-name rule, the nickname-substring rule) is
inapplicable, so the match happened via the full-name-within-search rule at
normalized search length 2. -/
theorem C2_length_guard_cex :
    teamMatches "ab" "a" "zz" "a" = true
    ∧ (normalizeTeamName "ab").length = 2
    ∧ strIncludes (normalizeTeamName "ab") (normalizeTeamName "a") = true
    ∧ (normalizeTeamName "zz" == normalizeTeamName "ab") = false
    ∧ (normalizeTeamName "ab" == getTeamNickname "a") = false
    ∧ (normalizeTeamName "a" == normalizeTeamName "ab") = false
    ∧ (decide (4 ≤ (normalizeTeamName "ab").length)
        && strIncludes (normalizeTeamName "a") (normalizeTeamName "ab")) = false
    ∧ (decide (4 ≤ (getTeamNickname "a").length)
        && strIncludes (normalizeTeamName "ab") (getTeamNickname "a")) = false := by
  decide

/-- C2 (amended): the length-4 guard belongs to the converse rule.  When no
other rule applies, `teamMatches` reduces to rule 5 — the normalized search
term occurring inside the candidate's normalized full name — and that rule
fires only if the normalized search term has length at least 4; a search
term of normalized length 1–3 never matches through it.  The rule in which
the full name occurs inside the search term is unguarded. -/
theorem C2_substring_guard_amended
    (searchTeam teamName teamAbbr displayName : String)
    (h1 : (normalizeTeamName teamAbbr == normalizeTeamName searchTeam) = false)
    (h2 : (normalizeTeamName searchTeam == getTeamNickname displayName) = false)
    (h3 : (normalizeTeamName displayName == normalizeTeamName searchTeam) = false)
    (h4 : (normalizeTeamName teamName == normalizeTeamName searchTeam) = false)
    (h5 : strIncludes (normalizeTeamName searchTeam) (normalizeTeamName displayName) = false)
    (h6 : strIncludes (normalizeTeamName searchTeam) (normalizeTeamName teamName) = false)
    (h7 : (decide (4 ≤ (getTeamNickname displayName).length)
        && strIncludes (normalizeTeamName searchTeam) (getTeamNickname displayName)) = false) :
    teamMatches searchTeam teamName teamAbbr displayName
      = (decide (4 ≤ (normalizeTeamName searchTeam).length)
          && strIncludes (normalizeTeamName displayName) (normalizeTeamName searchTeam))
    ∧ ((normalizeTeamName searchTeam).length < 4 →
        teamMatches searchTeam teamName teamAbbr displayName = false) := by
  have main : teamMatches searchTeam teamName teamAbbr displayName
      = (decide (4 ≤ (normalizeTeamName searchTeam).length)
          && strIncludes (normalizeTeamName displayName) (normalizeTeamName searchTeam)) := by
    simp only [teamMatches, h1, h2, h3, h4, h5, h6, h7,
      Bool.false_or, Bool.or_false]
  refine ⟨main, fun hlen => ?_⟩
  rw [main]
  have : decide (4 ≤ (normalizeTeamName searchTeam).length) = false := by
    simp
    omega
  simp [this]

/-- Closed instance of the amended C2: a length-3 search term with all other
rules inapplicable does not match. -/
theorem C2_substring_guard_witness :
    teamMatches "xyz" "qqqq" "ppp" "qqqq" = false :=
  (C2_substring_guard_amended "xyz" "qqqq" "ppp" "qqqq" (by decide) (by decide)
    (by decide) (by decide) (by decide) (by decide) (by decide)).2 (by decide)

/-! ## Claim C10 -/

/-- Sample MLB schedule game used to instantiate C10. -/
def mlbSampleGame : MlbScheduleGame :=
  { gamePk := 745804, homeName := "Toronto Blue Jays", awayName := "New York Yankees" }

/-- C10: `teamMatches` matches whenever the candidate abbreviation and the
search term normalize to the same string — including to the empty string.
Hence a search term whose normalization is empty matches every candidate
offered with an empty abbreviation, as the per-game checks in
`fetchMlbGameId` always do; with such a home-team argument `fetchMlbGameId`
accepts the very first scheduled game. -/
theorem C10_empty_abbr_matches :
    (∀ s tn ta dn : String, normalizeTeamName ta = normalizeTeamName s →
      teamMatches s tn ta dn = true)
    ∧ (∀ s tn dn : String, normalizeTeamName s = "" →
      teamMatches s tn "" dn = true)
    ∧ (∀ (h a : String) (games : List MlbScheduleGame) (entry : MlbDateEntry)
        (rest : List MlbDateEntry),
        normalizeTeamName h = "" → entry.games = some games →
        fetchMlbGameId h a (.payload (entry :: rest))
          = (games.head?).map mlbResultOf) := by
  have rule1 : ∀ s tn ta dn : String, normalizeTeamName ta = normalizeTeamName s →
      teamMatches s tn ta dn = true := by
    intro s tn ta dn h
    simp [teamMatches, h]
  have rule2 : ∀ s tn dn : String, normalizeTeamName s = "" →
      teamMatches s tn "" dn = true := by
    intro s tn dn h
    exact rule1 s tn "" dn (by simp [h]; decide)
  refine ⟨rule1, rule2, ?_⟩
  intro h a games entry rest hh hg
  have hmatch : ∀ g ∈ games, mlbGameMatchesB h a g = true := by
    intro g _
    simp [mlbGameMatchesB, rule2 h (extractMlbNickname g.homeName) g.homeName hh]
  simp [fetchMlbGameId, hg, find?_all_true_head _ _ hmatch]

/-- Closed instance of C10: a pure-punctuation search term resolves the MLB
secondary lookup to the first scheduled game. -/
theorem C10_empty_abbr_witness :
    fetchMlbGameId "..." "zzz" (.payload [{ games := some [mlbSampleGame] }])
      = some (mlbResultOf mlbSampleGame) :=
  C10_empty_abbr_matches.2.2 "..." "zzz" [mlbSampleGame]
    { games := some [mlbSampleGame] } [] (by decide) rfl

/-! ## Claim C7 -/

/-- C7: `fetchGamesByDate` is total and soft-failing — an unknown league, a
thrown request, a non-2xx response and a missing `events` field each produce
the empty list; with a payload each event is processed independently, and an
event with incomplete competitor data (no or empty competitions, missing
competitor list, fewer than two competitors, or no home or no away side)
contributes nothing instead of failing the batch. -/
theorem C7_fetchGames_soft_fail (league date : String) :
    (scoreboardUrlFor league = none →
      ∀ outcome, fetchGamesByDate league date outcome = [])
    ∧ fetchGamesByDate league date .thrown = []
    ∧ fetchGamesByDate league date .httpError = []
    ∧ fetchGamesByDate league date (.payload { events := none }) = []
    ∧ (∀ u events, scoreboardUrlFor league = some u →
        fetchGamesByDate league date (.payload { events := some events })
          = events.flatMap (processEvent league date))
    ∧ (∀ event : ESPNGame,
        (event.competitions = none ∨ event.competitions = some [] ∨
          (∃ comp comps, event.competitions = some (comp :: comps) ∧
            (comp.competitors = none ∨
              ∃ cs, comp.competitors = some cs ∧
                (cs.length < 2 ∨
                 cs.find? (fun c => c.homeAway == "home") = none ∨
                 cs.find? (fun c => c.homeAway == "away") = none)))) →
        processEvent league date event = []) := by
  refine ⟨?_, ?_, ?_, ?_, ?_, ?_⟩
  · intro hurl outcome
    simp [fetchGamesByDate, hurl]
  · unfold fetchGamesByDate
    cases scoreboardUrlFor league <;> rfl
  · unfold fetchGamesByDate
    cases scoreboardUrlFor league <;> rfl
  · unfold fetchGamesByDate
    cases scoreboardUrlFor league <;> rfl
  · intro u events hurl
    cases events with
    | nil => simp [fetchGamesByDate, hurl]
    | cons e es => simp [fetchGamesByDate, hurl]
  · intro event hbad
    rcases hbad with hnone | hempty | ⟨comp, comps, hsome, hinner⟩
    · simp [processEvent, hnone]
    · simp [processEvent, hempty]
    · rcases hinner with hcnone | ⟨cs, hcs, hlen | hhome | haway⟩
      · simp [processEvent, hsome, hcnone]
      · have : ¬(cs.length ≥ 2) := by omega
        simp [processEvent, hsome, hcs, this]
      · simp [processEvent, hsome, hcs, hhome]
      · rcases hfh : cs.find? (fun c => c.homeAway == "home") with _ | homeT
        · simp [processEvent, hsome, hcs, hfh]
        · simp [processEvent, hsome, hcs, hfh, haway]

/-- Closed instance of C7: an unknown league yields the empty list. -/
theorem C7_fetchGames_witness :
    fetchGamesByDate "xyz" "2024-01-15" .httpError = [] :=
  (C7_fetchGames_soft_fail "xyz" "2024-01-15").1 (by decide) .httpError

/-! ## Claim C4 -/

/-- A one-game NBA scoreboard used to instantiate C4 and C1. -/
def sampleHomeSide : ESPNCompetitor :=
  { team := { name := "Lakers", abbreviation := "LAL",
              displayName := "Los Angeles Lakers" },
    homeAway := "home" }

def sampleAwaySide : ESPNCompetitor :=
  { team := { name := "Celtics", abbreviation := "BOS",
              displayName := "Boston Celtics" },
    homeAway := "away" }

def sampleNbaEvent : ESPNGame :=
  { id := "401585183",
    competitions := some [{ competitors := some [sampleHomeSide, sampleAwaySide] }] }

/-- A scoreboard oracle answering the NBA request with the one sample event
and failing every other league. -/
def sampleScoreboard : Scoreboard := fun league _ =>
  if league = "nba" then .payload { events := some [sampleNbaEvent] } else .thrown

/-- C4: `findGame` returns the first match across the concatenation of the
candidate leagues' game lists (leagues in the given order, games in listed
order, the home side tested before the away side inside `gameMatchesB`); it
returns `none` exactly when no game of any candidate league matches; and
its loop stops fetching at the first league containing a match, so later
leagues are never queried. -/
theorem C4_findGame_first_match (teamName date : String) (sb : Scoreboard) :
    (∀ leagues, findGame teamName date sb leagues
      = (leagues.flatMap fun l => fetchGamesByDate l date (sb l date)).find?
          (gameMatchesB teamName))
    ∧ (∀ leagues, findGame teamName date sb leagues = none ↔
        ∀ l ∈ leagues, ∀ g ∈ fetchGamesByDate l date (sb l date),
          gameMatchesB teamName g = false)
    ∧ (∀ L1 league L2,
        (∀ l ∈ L1, ∀ g ∈ fetchGamesByDate l date (sb l date),
          gameMatchesB teamName g = false) →
        (∃ g ∈ fetchGamesByDate league date (sb league date),
          gameMatchesB teamName g = true) →
        findGameQueried teamName date sb (L1 ++ league :: L2) = L1 ++ [league]) := by
  have flat : ∀ leagues, findGame teamName date sb leagues
      = (leagues.flatMap fun l => fetchGamesByDate l date (sb l date)).find?
          (gameMatchesB teamName) := by
    intro leagues
    induction leagues with
    | nil => rfl
    | cons l rest ih =>
      rw [List.flatMap_cons, find?_append_or]
      unfold findGame
      rcases hfind : List.find? (gameMatchesB teamName)
          (fetchGamesByDate l date (sb l date)) with _ | g
      · simp [hfind, ih]
      · simp [hfind]
  refine ⟨flat, ?_, ?_⟩
  · intro leagues
    rw [flat, List.find?_eq_none]
    constructor
    · intro hall l hl g hg
      have := hall g (by
        rw [List.mem_flatMap]
        exact ⟨l, hl, hg⟩)
      simpa using this
    · intro hall g hg
      rw [List.mem_flatMap] at hg
      obtain ⟨l, hl, hgl⟩ := hg
      simp [hall l hl g hgl]
  · intro L1 league L2 hnone hsome
    induction L1 with
    | nil =>
      obtain ⟨g, hg, hmatch⟩ := hsome
      rcases hfind : (fetchGamesByDate league date (sb league date)).find?
          (gameMatchesB teamName) with _ | g0
      · rw [List.find?_eq_none] at hfind
        exact absurd hmatch (by simpa using hfind g hg)
      · simp [findGameQueried, hfind]
    | cons l t ih =>
      have hlnone : (fetchGamesByDate l date (sb l date)).find?
          (gameMatchesB teamName) = none := by
        rw [List.find?_eq_none]
        intro g hg
        simp [hnone l (List.mem_cons_self l t) g hg]
      have ih2 := ih (fun l2 hl2 => hnone l2 (List.mem_cons_of_mem l hl2))
      simp only [List.cons_append, findGameQueried, hlnone, List.append_eq, ih2]

/-- Closed instance of C4: with the sample scoreboard the loop queries only
the NBA and stops there. -/
theorem C4_findGame_witness :
    findGameQueried "Lakers" "2024-01-15" sampleScoreboard ["nba", "mlb"] = ["nba"] :=
  (C4_findGame_first_match "Lakers" "2024-01-15" sampleScoreboard).2.2 [] "nba" ["mlb"]
    (by simp) (by decide)

/-! ## Claim C3 -/

/-- C3: when no game is resolved, the links are exactly one search-type ESPN
link per candidate league, in candidate order, followed by exactly one
Google web-search fallback built from team name, player name, formatted
date and "box score"; no link is direct. -/
theorem C3_no_game_fallback (query : SearchQuery) (env : Env)
    (h : resolvedGame query env = none) :
    (generateBoxScoreLinks query env).links
      = (leaguesOf query env).map (espnFallbackLink query)
        ++ [googleFallbackLink query (leaguesOf query env)]
    ∧ (∀ link ∈ (generateBoxScoreLinks query env).links, link.linkType = "search")
    ∧ (∀ link ∈ (generateBoxScoreLinks query env).links, link.linkType ≠ "direct")
    ∧ (generateBoxScoreLinks query env).links.length = (leaguesOf query env).length + 1
    ∧ (googleFallbackLink query (leaguesOf query env)).url
      = "https://www.google.com/search?q=" ++ encodeURIComponent
          (jsTrim (query.teamName ++ " " ++ query.playerName ++ " "
            ++ formatDateForDisplay query.gameDate ++ " box score")) := by
  have hlinks : (generateBoxScoreLinks query env).links
      = (leaguesOf query env).map (espnFallbackLink query)
        ++ [googleFallbackLink query (leaguesOf query env)] := by
    simp [generateBoxScoreLinks, h, generateFallbackLinks]
  have hsearch : ∀ link ∈ (generateBoxScoreLinks query env).links,
      link.linkType = "search" := by
    intro link hl
    rw [hlinks] at hl
    rcases List.mem_append.mp hl with hm | hm
    · obtain ⟨l, _, rfl⟩ := List.mem_map.mp hm
      rfl
    · rw [List.mem_singleton] at hm
      rw [hm]
      rfl
  refine ⟨hlinks, hsearch, fun link hl => ?_, ?_, rfl⟩
  · rw [hsearch link hl]
    decide
  · rw [hlinks]
    simp

/-- An environment whose scoreboard always fails, so no game resolves. -/
def envNoGames : Env :=
  { searchPlayerTeam := fun _ => none,
    scoreboard := fun _ _ => .thrown,
    nbaLookup := fun _ _ _ => none,
    mlbSchedule := fun _ _ _ => .thrown }

def qLakers : SearchQuery :=
  { playerName := "", teamName := "Lakers", gameDate := "2024-01-15" }

/-- Closed instance of C3: an unresolved Lakers query yields one ESPN search
link (one candidate league) plus the Google fallback. -/
theorem C3_no_game_witness :
    (generateBoxScoreLinks qLakers envNoGames).links.length
      = (leaguesOf qLakers envNoGames).length + 1 :=
  (C3_no_game_fallback qLakers envNoGames (by decide)).2.2.2.1

/-! ## Claim C8 -/

/-- C8: a request whose game date is present and non-empty but whose player
and team names are both blank after trimming is rejected by validation with
the failing path `["teamName"]`, the response status is 400, and the link
generator is never consulted (the response is independent of it). -/
theorem C8_blank_names_rejected (r : RawQuery) (d : String)
    (hd : r.gameDate = some d) (hne : d ≠ "")
    (hp : jsTrim ((r.playerName).getD "") = "")
    (ht : jsTrim ((r.teamName).getD "") = "") :
    (∀ gen, handleSearch gen r
      = .badRequest "Invalid search query"
          { message := "Either player name or team name is required",
            path := ["teamName"] })
    ∧ (∀ gen, (handleSearch gen r).status = 400)
    ∧ (∀ gen gen2, handleSearch gen r = handleSearch gen2 r) := by
  have hparse : safeParse r = .error
      { message := "Either player name or team name is required",
        path := ["teamName"] } := by
    have hlen : ¬(d.length < 1) := by
      have := length_pos_of_ne_empty hne
      omega
    have hcond : ¬(0 < (jsTrim ((r.playerName).getD "")).length
        ∨ 0 < (jsTrim ((r.teamName).getD "")).length) := by
      rw [hp, ht]
      decide
    simp only [safeParse, hd]
    rw [if_neg hlen, if_neg hcond]
  have hall : ∀ gen, handleSearch gen r
      = .badRequest "Invalid search query"
          { message := "Either player name or team name is required",
            path := ["teamName"] } := by
    intro gen
    unfold handleSearch
    rw [hparse]
  exact ⟨hall, fun gen => by rw [hall gen]; rfl,
    fun g1 g2 => by rw [hall g1, hall g2]⟩

/-- A concrete link generator for the C8 instance. -/
def sampleGen : SearchQuery → SearchResult :=
  fun q => generateBoxScoreLinks q envNoGames

def blankNamesRequest : RawQuery :=
  { playerName := some "   ", teamName := some "", gameDate := some "2024-01-15" }

/-- Closed instance of C8: the blank-names request is answered with 400. -/
theorem C8_blank_names_witness :
    (handleSearch sampleGen blankNamesRequest).status = 400 :=
  (C8_blank_names_rejected blankNamesRequest "2024-01-15" rfl (by decide)
    (by decide) (by decide)).2.1 sampleGen

/-! ## Claim C9 -/

/-- C9 (amended): for every query whose team name is the empty string — the
only value the source's falsiness test treats as absent — and whose player
name is non-blank, a successful player→team lookup makes
`matchInfo.resolvedFromPlayer` equal `true` and makes `matchInfo.teamName`
the looked-up team name followed by " (from ", the player name returned by
the lookup, and ")"; when a non-empty team name was supplied,
`resolvedFromPlayer` is absent and `matchInfo.teamName` is the supplied
name. -/
theorem C9_resolvedFromPlayer_amended (query : SearchQuery) (env : Env) :
    (∀ pt, query.teamName = "" → jsTrim query.playerName ≠ "" →
      env.searchPlayerTeam query.playerName = some pt →
      (generateBoxScoreLinks query env).matchInfo.resolvedFromPlayer = some true
      ∧ (generateBoxScoreLinks query env).matchInfo.teamName
          = pt.teamName ++ " (from " ++ pt.playerName ++ ")")
    ∧ (query.teamName ≠ "" →
      (generateBoxScoreLinks query env).matchInfo.resolvedFromPlayer = none
      ∧ (generateBoxScoreLinks query env).matchInfo.teamName = query.teamName) := by
  constructor
  · intro pt hteam hplayer hlookup
    have hpne : query.playerName ≠ "" := by
      intro h0
      apply hplayer
      rw [h0]
      rfl
    have hrpt : resolvedPlayerTeamOf query env = some pt := by
      simp [resolvedPlayerTeamOf, hteam, hpne, hlookup]
    constructor <;> simp [generateBoxScoreLinks, hrpt]
  · intro hteam
    have hrpt : resolvedPlayerTeamOf query env = none := by
      simp [resolvedPlayerTeamOf, hteam]
    constructor <;> simp [generateBoxScoreLinks, hrpt]

def samplePlayerTeam : PlayerTeam :=
  { playerName := "LeBron James", teamName := "Los Angeles Lakers", league := "nba" }

/-- An environment whose player→team lookup always succeeds. -/
def envPlayerLookup : Env :=
  { searchPlayerTeam := fun _ => some samplePlayerTeam,
    scoreboard := fun _ _ => .thrown,
    nbaLookup := fun _ _ _ => none,
    mlbSchedule := fun _ _ _ => .thrown }

def qBlankTeam : SearchQuery :=
  { playerName := "LeBron James", teamName := " ", gameDate := "2024-01-15" }

/-- C9 is refuted for blank-but-nonempty team names: with `teamName = " "`
(blank after trimming) and a non-blank player name, the lookup — though it
would succeed — is never consulted, because the source tests `teamName` for
JS falsiness, not blankness; `resolvedFromPlayer` stays absent and
`matchInfo.teamName` is the supplied blank string. -/
theorem C9_blank_team_cex :
    jsTrim qBlankTeam.teamName = ""
    ∧ jsTrim qBlankTeam.playerName ≠ ""
    ∧ envPlayerLookup.searchPlayerTeam qBlankTeam.playerName = some samplePlayerTeam
    ∧ (generateBoxScoreLinks qBlankTeam envPlayerLookup).matchInfo.resolvedFromPlayer = none
    ∧ (generateBoxScoreLinks qBlankTeam envPlayerLookup).matchInfo.teamName = " " := by
  decide

def qPlayerOnly : SearchQuery :=
  { playerName := "LeBron James", teamName := "", gameDate := "2024-01-15" }

/-- Closed instance of the amended C9. -/
theorem C9_resolvedFromPlayer_witness :
    (generateBoxScoreLinks qPlayerOnly envPlayerLookup).matchInfo.resolvedFromPlayer
        = some true
    ∧ (generateBoxScoreLinks qPlayerOnly envPlayerLookup).matchInfo.teamName
        = "Los Angeles Lakers (from LeBron James)" :=
  (C9_resolvedFromPlayer_amended qPlayerOnly envPlayerLookup).1 samplePlayerTeam rfl
    (by decide) rfl

/-! ## Claim C1 -/

theorem map_linkType_enumMap (l : List (Nat × DirectUrl)) :
    (l.map fun p =>
      ({ id := jsWsRunsToDash (jsToLower p.2.provider) ++ "-" ++ toString p.1,
         provider := p.2.provider,
         providerType := p.2.providerType,
         league := p.2.league,
         url := p.2.url,
         description := p.2.description,
         linkType := "direct" } : BoxScoreLink)).map (·.linkType)
      = List.replicate l.length "direct" := by
  induction l with
  | nil => rfl
  | cons a t ih => simp [ih, List.replicate_succ]

theorem directLinksOf_linkTypes (game : GameInfo) :
    (directLinksOf game).map (·.linkType)
      = List.replicate (generateDirectUrls game).length "direct" := by
  unfold directLinksOf
  rw [map_linkType_enumMap]
  simp

theorem generateDirectUrls_length (game : GameInfo) :
    (generateDirectUrls game).length
      = if jsToLower game.league == "mls" then 2 else 3 := by
  by_cases h : (jsToLower game.league == "mls") = true
  · simp [generateDirectUrls, h]
  · rw [Bool.not_eq_true] at h
    simp [generateDirectUrls, h]

theorem map_pair_enumMap (l : List (Nat × DirectUrl)) :
    (l.map fun p =>
      ({ id := jsWsRunsToDash (jsToLower p.2.provider) ++ "-" ++ toString p.1,
         provider := p.2.provider,
         providerType := p.2.providerType,
         league := p.2.league,
         url := p.2.url,
         description := p.2.description,
         linkType := "direct" } : BoxScoreLink)).map
        (fun x => (x.linkType, x.providerType))
      = l.map (fun p => ("direct", p.2.providerType)) := by
  induction l with
  | nil => rfl
  | cons a t ih => simp [ih]

theorem directLinksOf_pairs (game : GameInfo) :
    (directLinksOf game).map (fun l => (l.linkType, l.providerType))
      = List.replicate (generateDirectUrls game).length ("direct", "third-party") := by
  unfold directLinksOf
  rw [map_pair_enumMap]
  by_cases h : (jsToLower game.league == "mls") = true
  · simp [generateDirectUrls, h, List.enum, List.enumFrom, List.replicate]
  · rw [Bool.not_eq_true] at h
    simp [generateDirectUrls, h, List.enum, List.enumFrom, List.replicate]

/-- An environment whose scoreboard resolves the sample NBA game but whose
NBA.com secondary lookup fails. -/
def envNbaFail : Env :=
  { searchPlayerTeam := fun _ => none,
    scoreboard := sampleScoreboard,
    nbaLookup := fun _ _ _ => none,
    mlbSchedule := fun _ _ _ => .thrown }

/-- C1 is refuted: when an NBA game resolves but the NBA.com secondary
lookup fails, the source prepends (`unshift`) a search-type NBA.com
schedule link, so the first link is of type "search" and precedes the
direct links that were built. -/
theorem C1_ordering_cex :
    (resolvedGame qLakers envNbaFail).isSome = true
    ∧ (generateBoxScoreLinks qLakers envNbaFail).links.map (·.linkType)
        = ["search", "direct", "direct", "direct", "direct", "search"]
    ∧ (generateBoxScoreLinks qLakers envNbaFail).links.head?.map (·.linkType)
        = some "search" := by
  decide

/-- C1 (amended): when a game is resolved, the links are a non-empty block
of direct links — official direct links first, then third-party direct
links — followed by a block of search links, so the first link is direct
and every direct link (official first, then third-party) precedes every
search link — except in the one case the counterexample exhibits: a
resolved NBA game whose NBA.com secondary lookup failed, where a
search-type official schedule link is prepended in front of the direct
links. -/
theorem C1_ordering_amended (query : SearchQuery) (env : Env) (game : GameInfo)
    (hres : resolvedGame query env = some game)
    (hnba : ¬(game.league = "NBA" ∧
      env.nbaLookup query.gameDate game.homeTeamAbbr game.awayTeamAbbr = none)) :
    (∃ a b, 0 < a ∧
      (generateBoxScoreLinks query env).links.map (·.linkType)
        = List.replicate a "direct" ++ List.replicate b "search")
    ∧ (∃ o d b,
      (generateBoxScoreLinks query env).links.map
          (fun l => (l.linkType, l.providerType))
        = List.replicate o ("direct", "official")
          ++ List.replicate d ("direct", "third-party")
          ++ List.replicate b ("search", "third-party"))
    ∧ (generateBoxScoreLinks query env).links.head?.map (·.linkType)
        = some "direct" := by
  have hlinks : (generateBoxScoreLinks query env).links
      = resolvedLinks query env game (teamNameToUse query env) := by
    simp [generateBoxScoreLinks, hres]
  have main : ∃ a b, 0 < a ∧
      (resolvedLinks query env game (teamNameToUse query env)).map (·.linkType)
        = List.replicate a "direct" ++ List.replicate b "search" := by
    by_cases hl : game.league = "NBA"
    · rcases hlook : env.nbaLookup query.gameDate game.homeTeamAbbr game.awayTeamAbbr
        with _ | nbaGame
      · exact absurd ⟨hl, hlook⟩ hnba
      · refine ⟨5, 1, by omega, ?_⟩
        have hd := directLinksOf_linkTypes game
        rw [generateDirectUrls_length, hl] at hd
        simp [resolvedLinks, nbaBlock, hl, hlook, hd]
        decide
    · by_cases hm : game.league = "MLB"
      · have hne : (game.league == "NBA") = false := by
          simp [hl]
        rcases hmlb : fetchMlbGameId game.homeTeam game.awayTeam
            (env.mlbSchedule query.gameDate game.homeTeam game.awayTeam) with _ | mlbGame
        · refine ⟨3, 2, by omega, ?_⟩
          have hd := directLinksOf_linkTypes game
          rw [generateDirectUrls_length, hm] at hd
          simp [resolvedLinks, mlbBlock, hm, hne, hmlb, hd]
          decide
        · refine ⟨4, 2, by omega, ?_⟩
          have hd := directLinksOf_linkTypes game
          rw [generateDirectUrls_length, hm] at hd
          simp [resolvedLinks, mlbBlock, hm, hne, hmlb, hd]
          decide
      · have hne : (game.league == "NBA") = false := by
          simp [hl]
        have hne2 : (game.league == "MLB") = false := by
          simp [hm]
        have hd := directLinksOf_linkTypes game
        rw [generateDirectUrls_length] at hd
        by_cases hmls : (jsToLower game.league == "mls") = true
        · rw [if_pos hmls] at hd
          refine ⟨2, 1, by omega, ?_⟩
          simp [resolvedLinks, hne, hne2, hd]
        · rw [if_neg hmls] at hd
          refine ⟨3, 1, by omega, ?_⟩
          simp [resolvedLinks, hne, hne2, hd]
  have mainPairs : ∃ o d b,
      (resolvedLinks query env game (teamNameToUse query env)).map
          (fun l => (l.linkType, l.providerType))
        = List.replicate o ("direct", "official")
          ++ List.replicate d ("direct", "third-party")
          ++ List.replicate b ("search", "third-party") := by
    by_cases hl : game.league = "NBA"
    · rcases hlook : env.nbaLookup query.gameDate game.homeTeamAbbr game.awayTeamAbbr
        with _ | nbaGame
      · exact absurd ⟨hl, hlook⟩ hnba
      · refine ⟨1, 4, 1, ?_⟩
        have hd := directLinksOf_pairs game
        rw [generateDirectUrls_length, hl] at hd
        simp [resolvedLinks, nbaBlock, hl, hlook, hd]
        decide
    · by_cases hm : game.league = "MLB"
      · have hne : (game.league == "NBA") = false := by
          simp [hl]
        rcases hmlb : fetchMlbGameId game.homeTeam game.awayTeam
            (env.mlbSchedule query.gameDate game.homeTeam game.awayTeam) with _ | mlbGame
        · refine ⟨0, 3, 2, ?_⟩
          have hd := directLinksOf_pairs game
          rw [generateDirectUrls_length, hm] at hd
          simp [resolvedLinks, mlbBlock, hm, hne, hmlb, hd]
          decide
        · refine ⟨1, 3, 2, ?_⟩
          have hd := directLinksOf_pairs game
          rw [generateDirectUrls_length, hm] at hd
          simp [resolvedLinks, mlbBlock, hm, hne, hmlb, hd]
          decide
      · have hne : (game.league == "NBA") = false := by
          simp [hl]
        have hne2 : (game.league == "MLB") = false := by
          simp [hm]
        have hd := directLinksOf_pairs game
        rw [generateDirectUrls_length] at hd
        by_cases hmls : (jsToLower game.league == "mls") = true
        · rw [if_pos hmls] at hd
          refine ⟨0, 2, 1, ?_⟩
          simp [resolvedLinks, hne, hne2, hd]
        · rw [if_neg hmls] at hd
          refine ⟨0, 3, 1, ?_⟩
          simp [resolvedLinks, hne, hne2, hd]
  rw [hlinks]
  obtain ⟨a, b, ha, hm⟩ := main
  obtain ⟨o, d, c, hp⟩ := mainPairs
  exact ⟨⟨a, b, ha, hm⟩, ⟨o, d, c, hp⟩,
    head?_of_map_replicate _ _ a "direct" _ hm ha⟩

/-- The game the sample scoreboard resolves. -/
def sampleGameInfo : GameInfo :=
  { espnGameId := "401585183", homeTeam := "Los Angeles Lakers",
    awayTeam := "Boston Celtics", homeTeamAbbr := "LAL", awayTeamAbbr := "BOS",
    gameDate := "2024-01-15", league := "NBA" }

/-- An environment where the NBA secondary lookup succeeds. -/
def envNbaOk : Env :=
  { searchPlayerTeam := fun _ => none,
    scoreboard := sampleScoreboard,
    nbaLookup := fun _ _ _ =>
      some { gameId := "0022300555", awayAbbr := "bos", homeAbbr := "lal" },
    mlbSchedule := fun _ _ _ => .thrown }

/-- Closed instance of the amended C1: with a successful secondary lookup
the first link is direct. -/
theorem C1_ordering_witness :
    (generateBoxScoreLinks qLakers envNbaOk).links.head?.map (·.linkType)
      = some "direct" :=
  (C1_ordering_amended qLakers envNbaOk sampleGameInfo (by decide) (by decide)).2.2

end BoxScore
